/-
Verification of the ticket-tracker backend (backend/app/main.py).

The store `tickets_db` (a Python dict, which preserves insertion order) is
embedded as an insertion-ordered association list `Db`.  Mutation of a stored
ticket object in place becomes `dbSet`, which rewrites the entry at the given
key and keeps its position.  FastAPI/pydantic boundary validation (min/max
field lengths, HTTP error responses) is embedded explicitly: a handler returns
`Except ApiError ...`, with `validationError` standing for the 422 response
produced by pydantic and `notFound` for `HTTPException(404)`.

Timestamps are the strings the code stores (`datetime.utcnow().isoformat()`);
a separate `DateTime` structure together with `isoformat` models that
serialization so that the lexicographic/chronological agreement of the
sort key can be proved.
-/
import Mathlib

set_option maxHeartbeats 1600000

namespace TicketTracker

/-- The `Ticket` record (pydantic model `Ticket` in main.py): all fields are
text; `assigned_to` is optional (`None` means unassigned). -/
structure Ticket where
  id : String
  title : String
  description : String
  status : String
  priority : String
  assigned_to : Option String
  created_at : String
  updated_at : String
deriving DecidableEq, Repr

/-- `tickets_db`: a Python dict from ticket id to ticket, embedded as an
insertion-ordered association list. -/
abbrev Db := List (String × Ticket)

/-- The status enumeration used throughout main.py. -/
def validStatuses : List String := ["open", "in_progress", "resolved", "closed"]

/-- The priority enumeration used throughout main.py. -/
def validPriorities : List String := ["low", "medium", "high", "critical"]

/-- `validate_ticket_priority` from main.py (defined there but never called
by any endpoint or helper).  `priority.lower()` is modelled as a per-character
ASCII lowering, which agrees with Python on the relevant alphabet. -/
def validate_ticket_priority (priority : String) : Bool :=
  validPriorities.contains (String.mk (priority.data.map Char.toLower))

/-- Assignment to `tickets_db[i]`'s fields: rewrite the entry stored at key
`i` in place (position preserved), leave all other entries unchanged. -/
def dbSet (db : Db) (i : String) (f : Ticket → Ticket) : Db :=
  db.map (fun kv => if kv.1 = i then (kv.1, f kv.2) else kv)

/-- Typed failures surfaced by the handlers: `validationError` is pydantic's
422 response, `notFound` is `HTTPException(404, "Ticket not found")`. -/
inductive ApiError where
  | validationError
  | notFound
deriving DecidableEq, Repr

/-- Request body of `POST /api/tickets` (pydantic model `TicketCreate`):
`title`/`description` required with length bounds, `priority` defaults to
`"medium"` and is an unconstrained string, `assigned_to` optional. -/
structure TicketCreate where
  title : String
  description : String
  priority : String := "medium"
  assigned_to : Option String := none
deriving DecidableEq, Repr

/-- The boundary validation pydantic performs for `TicketCreate`:
only the two length constraints; `priority` is not checked. -/
def TicketCreate.valid (c : TicketCreate) : Bool :=
  (3 ≤ c.title.length && c.title.length ≤ 200)
    && (10 ≤ c.description.length && c.description.length ≤ 2000)

/-- Request body of `PUT /api/tickets/{id}` (pydantic model `TicketUpdate`):
every field optional, `none` meaning "field absent from the payload". -/
structure TicketUpdate where
  title : Option String := none
  description : Option String := none
  status : Option String := none
  priority : Option String := none
  assigned_to : Option String := none
deriving DecidableEq, Repr

/-- The boundary validation pydantic performs for `TicketUpdate`:
length bounds on `title`/`description` when present; `status` and
`priority` are not checked. -/
def TicketUpdate.valid (u : TicketUpdate) : Bool :=
  (match u.title with
    | none => true
    | some s => 3 ≤ s.length && s.length ≤ 200)
  && (match u.description with
    | none => true
    | some s => 10 ≤ s.length && s.length ≤ 2000)

/-- The record built by `create_ticket`: status is always `"open"`,
`priority`/`assigned_to` are taken verbatim from the request, and both
timestamps are the creation instant. -/
def newTicket (req : TicketCreate) (ticket_id now : String) : Ticket :=
  { id := ticket_id
  , title := req.title
  , description := req.description
  , status := "open"
  , priority := req.priority
  , assigned_to := req.assigned_to
  , created_at := now
  , updated_at := now }

/-- `POST /api/tickets` (`create_ticket`): pydantic validates the request,
then the handler inserts a fresh record (new dict key, appended at the end)
and returns it.  `ticket_id` and `now` stand for `uuid4()` and
`datetime.utcnow().isoformat()`. -/
def create_ticket (db : Db) (req : TicketCreate) (ticket_id now : String) :
    Except ApiError (Ticket × Db) :=
  if req.valid then
    .ok (newTicket req ticket_id now, db ++ [(ticket_id, newTicket req ticket_id now)])
  else
    .error .validationError

/-- The field-by-field mutation performed by `update_ticket`: each payload
field that is not `None` overwrites the stored field, then `updated_at` is
refreshed. -/
def applyTicketUpdate (t : Ticket) (u : TicketUpdate) (now : String) : Ticket :=
  let t := match u.title with
    | some v => { t with title := v }
    | none => t
  let t := match u.description with
    | some v => { t with description := v }
    | none => t
  let t := match u.status with
    | some v => { t with status := v }
    | none => t
  let t := match u.priority with
    | some v => { t with priority := v }
    | none => t
  let t := match u.assigned_to with
    | some v => { t with assigned_to := some v }
    | none => t
  { t with updated_at := now }

/-- `PUT /api/tickets/{id}` (`update_ticket`): pydantic validation, 404 on a
missing id, otherwise mutate the stored record in place and return it. -/
def update_ticket (db : Db) (ticket_id : String) (u : TicketUpdate) (now : String) :
    Except ApiError (Ticket × Db) :=
  if u.valid then
    match db.lookup ticket_id with
    | none => .error .notFound
    | some t =>
        .ok (applyTicketUpdate t u now, dbSet db ticket_id (fun t0 => applyTicketUpdate t0 u now))
  else
    .error .validationError

/-- The `updates: dict` payload of `bulk_update_tickets`, restricted to the
three keys the code reads (any other key of the dict is ignored by the code,
so it does not appear in the embedding).  The outer `Option` is key presence
in the dict; for `assigned_to` the inner `Option` is the JSON value, which
may be `null` (the stored field is `Optional[str]`). -/
structure BulkUpdates where
  status : Option String := none
  priority : Option String := none
  assigned_to : Option (Option String) := none
deriving DecidableEq, Repr

/-- The per-item body of the `bulk_update_tickets` loop: apply exactly the
keys present in `updates` among status/priority/assigned_to, then refresh
`updated_at`. -/
def applyBulkUpdates (t : Ticket) (u : BulkUpdates) (now : String) : Ticket :=
  let t := match u.status with
    | some v => { t with status := v }
    | none => t
  let t := match u.priority with
    | some v => { t with priority := v }
    | none => t
  let t := match u.assigned_to with
    | some v => { t with assigned_to := v }
    | none => t
  { t with updated_at := now }

/-- The `results` dict of `bulk_update_tickets`. -/
structure BulkResult where
  updated : List String
  failed : List String
  not_found : List String
deriving DecidableEq, Repr

/-- The `for ticket_id in ticket_ids` loop of `bulk_update_tickets`.  The
`try`/`except` around the item body never populates `failed` because every
statement in the body (dict lookup after a membership test, field
assignments, `utcnow().isoformat()`, list append) is total, so the body has
no `failed` branch. -/
def bulkGo (u : BulkUpdates) (now : String) :
    List String → BulkResult × Db → BulkResult × Db
  | [], acc => acc
  | ticket_id :: rest, (res, db) =>
    if (db.lookup ticket_id).isNone then
      bulkGo u now rest ({ res with not_found := res.not_found ++ [ticket_id] }, db)
    else
      bulkGo u now rest
        ({ res with updated := res.updated ++ [ticket_id] },
         dbSet db ticket_id (fun t0 => applyBulkUpdates t0 u now))

/-- `bulk_update_tickets` from main.py. -/
def bulk_update_tickets (db : Db) (ticket_ids : List String) (u : BulkUpdates)
    (now : String) : BulkResult × Db :=
  bulkGo u now ticket_ids (⟨[], [], []⟩, db)

/-- The tally `assignment_counts[member]` computed by
`assign_ticket_automatically`: the number of live tickets currently assigned
to `member`. -/
def countAssignments (db : Db) (member : String) : Nat :=
  ((db.map Prod.snd).filter (fun t => t.assigned_to == some member)).length

/-- `min(assignment_counts.items(), key=lambda x: x[1])`: CPython's `min`
keeps the earliest item on ties, and dict iteration order is first-occurrence
insertion order of `team_members`, so the selection is the left fold that
replaces the current best only on a strictly smaller count. -/
def leastBusyFold (c : String → Nat) (m0 : String) (ms : List String) : String :=
  ms.foldl (fun best x => if c x < c best then x else best) m0

/-- `assign_ticket_automatically` from main.py: `False` (no mutation) when
the ticket id is absent or `team_members` is empty; otherwise tally, pick the
least-busy member, write `assigned_to` and refresh `updated_at`. -/
def assign_ticket_automatically (db : Db) (ticket_id : String)
    (team_members : List String) (now : String) : Bool × Db :=
  if (db.lookup ticket_id).isNone then
    (false, db)
  else
    match team_members with
    | [] => (false, db)
    | m0 :: rest =>
        let least_busy := leastBusyFold (countAssignments db) m0 rest
        (true,
         dbSet db ticket_id
           (fun t0 => { t0 with assigned_to := some least_busy, updated_at := now }))

/-- `POST /api/tickets/{id}/auto-assign` (`auto_assign_endpoint`): any
`False` from `assign_ticket_automatically` becomes the single response
`HTTPException(400, "Assignment failed")`, modelled as `(400, detail)`. -/
def auto_assign_endpoint (db : Db) (ticket_id : String)
    (team_members : List String) (now : String) :
    Except (Nat × String) String × Db :=
  let r := assign_ticket_automatically db ticket_id team_members now
  if r.1 then (.ok ticket_id, r.2) else (.error (400, "Assignment failed"), r.2)

/-- The comparison under `tickets.sort(key=lambda x: x["created_at"],
reverse=True)`: `a` may precede `b` exactly when `a`'s key is not smaller. -/
def createdGE (a b : Ticket) : Prop := b.created_at ≤ a.created_at

instance : DecidableRel createdGE := fun a b =>
  decidable_of_iff
    (¬ List.Lex (fun c d : Char => c < d) a.created_at.data b.created_at.data)
    (by
      rw [show (List.Lex (fun c d : Char => c < d) a.created_at.data b.created_at.data
            ↔ a.created_at < b.created_at) from String.lt_iff_toList_lt.symm]
      exact not_lt)

instance : IsTotal Ticket createdGE :=
  ⟨fun a b => le_total b.created_at a.created_at⟩

instance : IsTrans Ticket createdGE :=
  ⟨fun _ _ _ h1 h2 => le_trans h2 h1⟩

/-- `tickets.sort(key=lambda x: x["created_at"], reverse=True)`: CPython's
sort is stable also with `reverse=True`, and the stable descending sort of a
list is computed by insertion sort with the non-strict descending
comparison. -/
def sortByCreatedAtDesc (l : List Ticket) : List Ticket :=
  l.insertionSort createdGE

/-- The two truthiness-guarded equality filters of `get_tickets`:
`if status:` applies the filter only when the parameter is present AND a
non-empty string (Python truthiness), and likewise for `priority`. -/
def filteredTickets (db : Db) (status priority : Option String) : List Ticket :=
  let tickets := db.map Prod.snd
  let tickets := match status with
    | some s => if s = "" then tickets else tickets.filter (fun t => t.status == s)
    | none => tickets
  match priority with
  | some p => if p = "" then tickets else tickets.filter (fun t => t.priority == p)
  | none => tickets

/-- `GET /api/tickets` (`get_tickets`): snapshot the dict values in insertion
order, apply the optional filters, sort by `created_at` descending. -/
def get_tickets (db : Db) (status priority : Option String) : List Ticket :=
  sortByCreatedAtDesc (filteredTickets db status priority)

/-- The response of `GET /api/stats` (`get_stats`); the two distribution
dicts are kept as key/count pairs in the literal key order of the code. -/
structure Stats where
  total : Nat
  by_status : List (String × Nat)
  by_priority : List (String × Nat)
deriving DecidableEq, Repr

/-- `GET /api/stats` (`get_stats`): total plus one hard-coded count per
enumeration member (a member with no tickets is counted as 0 by its filter
being empty, never omitted). -/
def get_stats (db : Db) : Stats :=
  let tickets := db.map Prod.snd
  { total := tickets.length
  , by_status :=
      [ ("open", (tickets.filter (fun t => t.status == "open")).length)
      , ("in_progress", (tickets.filter (fun t => t.status == "in_progress")).length)
      , ("resolved", (tickets.filter (fun t => t.status == "resolved")).length)
      , ("closed", (tickets.filter (fun t => t.status == "closed")).length) ]
  , by_priority :=
      [ ("low", (tickets.filter (fun t => t.priority == "low")).length)
      , ("medium", (tickets.filter (fun t => t.priority == "medium")).length)
      , ("high", (tickets.filter (fun t => t.priority == "high")).length)
      , ("critical", (tickets.filter (fun t => t.priority == "critical")).length) ]
  }

/-- The `resolved`/`completed` selection shared by `TicketAnalytics`:
tickets whose status is in `["resolved", "closed"]`. -/
def completedTickets (db : Db) : List Ticket :=
  (db.map Prod.snd).filter (fun t => (["resolved", "closed"] : List String).contains t.status)

/-- `TicketAnalytics.get_completion_rate`: `0.0` for an empty dict,
otherwise `completed / total * 100`, with exact rational arithmetic standing
for the Python float computation. -/
def get_completion_rate (db : Db) : Rat :=
  if db.isEmpty then 0
  else ((completedTickets db).length : Rat) / (db.length : Rat) * 100

/-- `TicketAnalytics.get_average_resolution_time`: `0.0` when no
resolved/closed ticket exists, otherwise the mean of the per-ticket
`(updated_at - created_at).days` values.  The calendar subtraction performed
by `datetime.fromisoformat` and `timedelta.days` is abstracted as the
parameter `days`, since this claim is about the guards, not the calendar. -/
def get_average_resolution_time (days : String → String → Int) (db : Db) : Rat :=
  let resolved := completedTickets db
  if resolved.isEmpty then 0
  else
    let times := resolved.map (fun t => days t.created_at t.updated_at)
    if times.isEmpty then 0 else (times.sum : Rat) / (times.length : Rat)

/-- A field tuple of Python's `datetime` (the values `utcnow()` can carry):
used to model the `isoformat()` serialization of the stored timestamps. -/
structure DateTime where
  year : Nat
  month : Nat
  day : Nat
  hour : Nat
  minute : Nat
  second : Nat
  microsecond : Nat
deriving DecidableEq, Repr

/-- The ranges Python's `datetime` enforces on its components
(`MINYEAR = 1`, `MAXYEAR = 9999`). -/
def DateTime.Valid (d : DateTime) : Prop :=
  1 ≤ d.year ∧ d.year ≤ 9999 ∧ 1 ≤ d.month ∧ d.month ≤ 12 ∧ 1 ≤ d.day ∧ d.day ≤ 31
    ∧ d.hour ≤ 23 ∧ d.minute ≤ 59 ∧ d.second ≤ 59 ∧ d.microsecond ≤ 999999

instance (d : DateTime) : Decidable d.Valid := by
  unfold DateTime.Valid
  infer_instance

/-- The decimal digit characters used by `isoformat`. -/
def dchar (n : Nat) : Char := Char.ofNat (48 + n)

/-- A two-digit zero-padded decimal field (`%02d`). -/
def pad2 (n : Nat) : List Char := [dchar (n / 10), dchar (n % 10)]

/-- A four-digit zero-padded decimal field (`%04d`, the year). -/
def pad4 (n : Nat) : List Char := pad2 (n / 100) ++ pad2 (n % 100)

/-- A six-digit zero-padded decimal field (`%06d`, the microseconds). -/
def pad6 (n : Nat) : List Char := pad2 (n / 10000) ++ pad2 ((n / 100) % 100) ++ pad2 (n % 100)

/-- The microsecond suffix of `isoformat()`: omitted entirely when the
microsecond component is 0, otherwise a dot followed by `%06d`. -/
def microSuffix (us : Nat) : List Char :=
  if us = 0 then [] else '.' :: pad6 us

/-- The characters of `datetime.isoformat()`: the fixed-width
`YYYY-MM-DDTHH:MM:SS` prefix followed by the optional microsecond suffix
(associated to the right for the prefix-decomposition lemmas). -/
def isoChars (d : DateTime) : List Char :=
  pad4 d.year ++ ('-' :: (pad2 d.month ++ ('-' :: (pad2 d.day ++ ('T' :: (pad2 d.hour
    ++ (':' :: (pad2 d.minute ++ (':' :: (pad2 d.second ++ microSuffix d.microsecond))))))))))

/-- `datetime.isoformat()` as stored in `created_at`/`updated_at`. -/
def isoformat (d : DateTime) : String := String.mk (isoChars d)

/-- Chronological (field-lexicographic) order on `DateTime`. -/
def chronoLT (a b : DateTime) : Prop :=
  a.year < b.year ∨ (a.year = b.year ∧
    (a.month < b.month ∨ (a.month = b.month ∧
      (a.day < b.day ∨ (a.day = b.day ∧
        (a.hour < b.hour ∨ (a.hour = b.hour ∧
          (a.minute < b.minute ∨ (a.minute = b.minute ∧
            (a.second < b.second ∨ (a.second = b.second ∧
              a.microsecond < b.microsecond)))))))))))

instance (a b : DateTime) : Decidable (chronoLT a b) := by
  unfold chronoLT
  infer_instance

/-- A concrete ticket value, used for concrete instantiations. -/
def sampleTicket (i status priority : String) (assigned : Option String)
    (created : String) : Ticket :=
  { id := i
  , title := "Sample ticket title"
  , description := "Sample ticket description"
  , status := status
  , priority := priority
  , assigned_to := assigned
  , created_at := created
  , updated_at := created }

/-- A small concrete store: member `A` holds two tickets, `x3` is
unassigned, and `x2`/`x3` share a creation timestamp. -/
def demoDb : Db :=
  [ ("x1", sampleTicket "x1" "open" "high" (some "A") "2024-01-01T00:00:00")
  , ("x2", sampleTicket "x2" "open" "low" (some "A") "2024-01-02T00:00:00")
  , ("x3", sampleTicket "x3" "resolved" "medium" none "2024-01-02T00:00:00") ]

/-- A store holding a ticket whose priority lies outside the priority
enumeration (reachable through `create_ticket`, which does not validate
priority). -/
def bogusDb : Db :=
  [("b1", sampleTicket "b1" "open" "bogus" none "2024-01-01T00:00:00")]

/-- A create request with valid lengths and an out-of-enumeration
priority. -/
def bogusReq : TicketCreate :=
  { title := "Valid title"
  , description := "A sufficiently long description"
  , priority := "bogus"
  , assigned_to := none }

/-! ### Store lemmas -/

theorem lookup_dbSet_self (db : Db) (i : String) (f : Ticket → Ticket) :
    (dbSet db i f).lookup i = (db.lookup i).map f := by
  induction db with
  | nil => rfl
  | cons kv rest ih =>
    obtain ⟨k, t⟩ := kv
    simp only [dbSet, List.map_cons] at *
    by_cases h : k = i
    · rw [if_pos h]
      simp [List.lookup, beq_iff_eq, h.symm]
    · rw [if_neg h]
      have h2 : (i == k) = false := by
        simp [Ne.symm h]
      simp only [List.lookup, h2]
      exact ih

theorem lookup_dbSet_ne (db : Db) (i j : String) (f : Ticket → Ticket) (h : i ≠ j) :
    (dbSet db j f).lookup i = db.lookup i := by
  induction db with
  | nil => rfl
  | cons kv rest ih =>
    obtain ⟨k, t⟩ := kv
    simp only [dbSet, List.map_cons] at *
    by_cases hk : k = j
    · rw [if_pos hk]
      have h2 : (i == k) = false := by
        simp [hk, h]
      simp only [List.lookup, h2]
      exact ih
    · rw [if_neg hk]
      cases hik : (i == k) with
      | true => simp only [List.lookup, hik]
      | false =>
        simp only [List.lookup, hik]
        exact ih

theorem isSome_lookup_dbSet (db : Db) (i j : String) (f : Ticket → Ticket) :
    ((dbSet db j f).lookup i).isSome = (db.lookup i).isSome := by
  by_cases h : i = j
  · subst h
    rw [lookup_dbSet_self]
    cases db.lookup i <;> rfl
  · rw [lookup_dbSet_ne db i j f h]

/-! ### Bulk update lemmas -/

theorem applyBulkUpdates_idem (t : Ticket) (u : BulkUpdates) (now : String) :
    applyBulkUpdates (applyBulkUpdates t u now) u now = applyBulkUpdates t u now := by
  rcases u with ⟨s, p, a⟩
  cases s <;> cases p <;> cases a <;> rfl

theorem bulkGo_fst (u : BulkUpdates) (now : String) :
    ∀ (ids : List String) (res : BulkResult) (db : Db),
      (bulkGo u now ids (res, db)).1 =
        { updated := res.updated ++ ids.filter (fun i => (db.lookup i).isSome)
        , failed := res.failed
        , not_found := res.not_found ++ ids.filter (fun i => (db.lookup i).isNone) } := by
  intro ids
  induction ids with
  | nil => intro res db; simp [bulkGo]
  | cons ticket_id rest ih =>
    intro res db
    cases hdb : db.lookup ticket_id with
    | none =>
      simp only [bulkGo, hdb, Option.isNone_none, if_pos]
      rw [ih]
      simp [List.filter_cons, hdb]
    | some t =>
      simp only [bulkGo, hdb, Option.isNone_some, Bool.false_eq_true, if_false]
      rw [ih]
      have hsome : ∀ i ∈ rest,
          (((dbSet db ticket_id (fun t0 => applyBulkUpdates t0 u now)).lookup i).isSome : Bool)
            = ((db.lookup i).isSome : Bool) := by
        intro i _
        exact isSome_lookup_dbSet db i ticket_id _
      have hnone : ∀ i ∈ rest,
          (((dbSet db ticket_id (fun t0 => applyBulkUpdates t0 u now)).lookup i).isNone : Bool)
            = ((db.lookup i).isNone : Bool) := by
        intro i hi
        have := isSome_lookup_dbSet db i ticket_id (fun t0 => applyBulkUpdates t0 u now)
        cases h1 : (dbSet db ticket_id (fun t0 => applyBulkUpdates t0 u now)).lookup i <;>
          cases h2 : db.lookup i <;> simp_all
      rw [List.filter_congr hsome, List.filter_congr hnone]
      simp [List.filter_cons, hdb]

theorem bulkGo_snd (u : BulkUpdates) (now : String) :
    ∀ (ids : List String) (res : BulkResult) (db : Db) (i : String),
      (bulkGo u now ids (res, db)).2.lookup i =
        if i ∈ ids ∧ (db.lookup i).isSome = true then
          (db.lookup i).map (fun t => applyBulkUpdates t u now)
        else db.lookup i := by
  intro ids
  induction ids with
  | nil => intro res db i; simp [bulkGo]
  | cons ticket_id rest ih =>
    intro res db i
    cases hdb : db.lookup ticket_id with
    | none =>
      simp only [bulkGo, hdb, Option.isNone_none, if_pos]
      rw [ih]
      by_cases hi : i = ticket_id
      · subst hi
        simp [hdb]
      · have hc : (i ∈ rest ∧ (db.lookup i).isSome = true)
            ↔ (i ∈ ticket_id :: rest ∧ (db.lookup i).isSome = true) := by
          simp [List.mem_cons, hi]
        rw [if_congr hc rfl rfl]
    | some t =>
      simp only [bulkGo, hdb, Option.isNone_some, Bool.false_eq_true, if_false]
      rw [ih]
      by_cases hi : i = ticket_id
      · subst hi
        rw [lookup_dbSet_self, hdb]
        by_cases hmem : i ∈ rest
        · simp only [hmem, hdb, List.mem_cons, true_or, true_and, Option.map_some,
            Option.isSome_some, if_pos, if_true]
          simp [applyBulkUpdates_idem]
        · simp [hmem, hdb]
      · rw [lookup_dbSet_ne db i ticket_id _ hi]
        have hc : (i ∈ rest ∧ (db.lookup i).isSome = true)
            ↔ (i ∈ ticket_id :: rest ∧ (db.lookup i).isSome = true) := by
          simp [List.mem_cons, hi]
        rw [if_congr hc rfl rfl]

/-! ### Least-busy selection lemmas -/

theorem leastBusyFold_cons (c : String → Nat) (m0 x : String) (ms : List String) :
    leastBusyFold c m0 (x :: ms) = leastBusyFold c (if c x < c m0 then x else m0) ms := rfl

theorem leastBusyFold_spec (c : String → Nat) :
    ∀ (ms : List String) (m0 : String),
      ∃ pre post, m0 :: ms = pre ++ leastBusyFold c m0 ms :: post
        ∧ (∀ y ∈ pre, c (leastBusyFold c m0 ms) < c y)
        ∧ (∀ y ∈ m0 :: ms, c (leastBusyFold c m0 ms) ≤ c y) := by
  intro ms
  induction ms with
  | nil =>
    intro m0
    exact ⟨[], [], rfl, by simp, by simp [leastBusyFold]⟩
  | cons x ms ih =>
    intro m0
    rw [leastBusyFold_cons]
    by_cases hx : c x < c m0
    · rw [if_pos hx]
      obtain ⟨pre, post, hsplit, hpre, hmin⟩ := ih x
      refine ⟨m0 :: pre, post, ?_, ?_, ?_⟩
      · rw [List.cons_append, ← hsplit]
      · intro y hy
        rcases List.mem_cons.mp hy with rfl | hy
        · exact lt_of_le_of_lt (hmin x (by simp)) hx
        · exact hpre y hy
      · intro y hy
        rcases List.mem_cons.mp hy with rfl | hy
        · exact le_of_lt (lt_of_le_of_lt (hmin x (by simp)) hx)
        · exact hmin y hy
    · rw [if_neg hx]
      have hx2 : c m0 ≤ c x := Nat.le_of_not_lt hx
      obtain ⟨pre, post, hsplit, hpre, hmin⟩ := ih m0
      cases pre with
      | nil =>
        simp only [List.nil_append] at hsplit
        have hr : leastBusyFold c m0 ms = m0 := by
          injection hsplit with h1 h2
          exact h1.symm
        refine ⟨[], x :: ms, ?_, by simp, ?_⟩
        · rw [List.nil_append, hr]
        · intro y hy
          rcases List.mem_cons.mp hy with rfl | hy
          · exact hmin y (by simp)
          · rcases List.mem_cons.mp hy with rfl | hy
            · calc c (leastBusyFold c m0 ms) ≤ c m0 := hmin m0 (by simp)
                _ ≤ c y := hx2
            · exact hmin y (by simp [hy])
      | cons p0 pre2 =>
        have hm0 : p0 = m0 := by
          have := congrArg (fun l => l.head?) hsplit
          simpa using this.symm
        subst hm0
        have htail : ms = pre2 ++ leastBusyFold c p0 ms :: post := by
          have := congrArg List.tail hsplit
          simpa using this
        refine ⟨p0 :: x :: pre2, post, ?_, ?_, ?_⟩
        · rw [show p0 :: x :: pre2 ++ leastBusyFold c p0 ms :: post
              = p0 :: x :: (pre2 ++ leastBusyFold c p0 ms :: post) from rfl, ← htail]
        · intro y hy
          have hlt0 : c (leastBusyFold c p0 ms) < c p0 := hpre p0 (by simp)
          rcases List.mem_cons.mp hy with rfl | hy
          · exact hlt0
          · rcases List.mem_cons.mp hy with rfl | hy
            · exact lt_of_lt_of_le hlt0 hx2
            · exact hpre y (by simp [hy])
        · intro y hy
          have hlt0 : c (leastBusyFold c p0 ms) < c p0 := hpre p0 (by simp)
          rcases List.mem_cons.mp hy with rfl | hy
          · exact le_of_lt hlt0
          · rcases List.mem_cons.mp hy with rfl | hy
            · exact le_of_lt (lt_of_lt_of_le hlt0 hx2)
            · exact hmin y (by simp [hy])

/-! ### Stable sort lemmas -/

theorem filter_orderedInsert (k : String) (a : Ticket) (l : List Ticket) :
    (List.orderedInsert createdGE a l).filter (fun t => t.created_at == k)
      = if a.created_at = k then a :: l.filter (fun t => t.created_at == k)
        else l.filter (fun t => t.created_at == k) := by
  induction l with
  | nil =>
    by_cases hak : a.created_at = k
    · simp [List.orderedInsert, List.filter, beq_iff_eq, hak]
    · have hbeq : (a.created_at == k) = false := by
        simp [hak]
      simp [List.orderedInsert, List.filter, hbeq, hak]
  | cons b l ih =>
    by_cases hab : createdGE a b
    · rw [List.orderedInsert, if_pos hab]
      by_cases hak : a.created_at = k <;> simp [List.filter_cons, hak]
    · rw [List.orderedInsert, if_neg hab]
      have hlt : a.created_at < b.created_at := not_le.mp hab
      by_cases hak : a.created_at = k
      · have hbk : (b.created_at == k) = false := by
          have hgt : k < b.created_at := hak ▸ hlt
          simp [ne_of_gt hgt]
        simp [List.filter_cons, hbk, ih, hak]
      · simp [List.filter_cons, ih, hak]

theorem filter_sortByCreatedAtDesc (k : String) (l : List Ticket) :
    (sortByCreatedAtDesc l).filter (fun t => t.created_at == k)
      = l.filter (fun t => t.created_at == k) := by
  induction l with
  | nil => rfl
  | cons a l ih =>
    show (List.orderedInsert createdGE a (List.insertionSort createdGE l)).filter _ = _
    rw [filter_orderedInsert]
    by_cases hak : a.created_at = k <;>
      simp [List.filter_cons, hak, show (List.insertionSort createdGE l).filter
        (fun t => t.created_at == k) = l.filter (fun t => t.created_at == k) from ih]

/-! ### Lexicographic order of the isoformat serialization -/

theorem dchar_lt_iff : ∀ a < 10, ∀ b < 10, ((dchar a < dchar b) ↔ a < b) := by
  decide

theorem dchar_inj : ∀ a < 10, ∀ b < 10, ((dchar a = dchar b) ↔ a = b) := by
  decide

theorem lex_pair_iff (x1 x2 y1 y2 : Char) :
    List.Lex (fun a b : Char => a < b) [x1, x2] [y1, y2]
      ↔ (x1 < y1 ∨ (x1 = y1 ∧ x2 < y2)) := by
  constructor
  · intro h
    cases h with
    | rel h1 => exact Or.inl h1
    | cons h2 => exact Or.inr ⟨rfl, (List.Lex.singleton_iff _ _).mp h2⟩
  · rintro (h | ⟨rfl, h⟩)
    · exact .rel h
    · exact .cons ((List.Lex.singleton_iff _ _).mpr h)

theorem lex_append_iff : ∀ (as bs cs ds : List Char),
    as.length = cs.length →
      (List.Lex (fun a b : Char => a < b) (as ++ bs) (cs ++ ds) ↔
        List.Lex (fun a b : Char => a < b) as cs
          ∨ (as = cs ∧ List.Lex (fun a b : Char => a < b) bs ds)) := by
  intro as
  induction as with
  | nil =>
    intro bs cs ds h
    cases cs with
    | nil => simp
    | cons c cs2 => simp at h
  | cons a as2 ih =>
    intro bs cs ds h
    cases cs with
    | nil => simp at h
    | cons c cs2 =>
      simp only [List.length_cons, Nat.add_right_cancel_iff] at h
      constructor
      · intro hlex
        cases hlex with
        | rel h1 => exact Or.inl (.rel h1)
        | cons h2 =>
          rcases (ih bs cs2 ds h).mp h2 with h3 | ⟨h3, h4⟩
          · exact Or.inl (.cons h3)
          · exact Or.inr ⟨by rw [h3], h4⟩
      · rintro (h1 | ⟨h1, h2⟩)
        · cases h1 with
          | rel h2 => exact .rel h2
          | cons h3 => exact .cons ((ih bs cs2 ds h).mpr (Or.inl h3))
        · injection h1 with h3 h4
          subst h3
          exact .cons ((ih bs cs2 ds h).mpr (Or.inr ⟨h4, h2⟩))

theorem append_eq_iff (as bs cs ds : List Char) (h : as.length = cs.length) :
    (as ++ bs = cs ++ ds) ↔ (as = cs ∧ bs = ds) :=
  ⟨fun he => List.append_inj he h, fun hp => by rw [hp.1, hp.2]⟩

theorem pad2_lt_iff (a b : Nat) (ha : a < 100) (hb : b < 100) :
    List.Lex (fun a b : Char => a < b) (pad2 a) (pad2 b) ↔ a < b := by
  unfold pad2
  rw [lex_pair_iff, dchar_lt_iff _ (by omega) _ (by omega),
    dchar_inj _ (by omega) _ (by omega), dchar_lt_iff _ (by omega) _ (by omega)]
  omega

theorem pad2_eq_iff (a b : Nat) (ha : a < 100) (hb : b < 100) :
    pad2 a = pad2 b ↔ a = b := by
  unfold pad2
  simp only [List.cons.injEq, and_true]
  rw [dchar_inj _ (by omega) _ (by omega), dchar_inj _ (by omega) _ (by omega)]
  omega

theorem pad4_lt_iff (a b : Nat) (ha : a < 10000) (hb : b < 10000) :
    List.Lex (fun a b : Char => a < b) (pad4 a) (pad4 b) ↔ a < b := by
  unfold pad4
  rw [lex_append_iff (pad2 (a / 100)) (pad2 (a % 100)) (pad2 (b / 100)) (pad2 (b % 100)) rfl,
    pad2_lt_iff _ _ (by omega) (by omega),
    pad2_eq_iff _ _ (by omega) (by omega), pad2_lt_iff _ _ (by omega) (by omega)]
  omega

theorem pad4_eq_iff (a b : Nat) (ha : a < 10000) (hb : b < 10000) :
    pad4 a = pad4 b ↔ a = b := by
  unfold pad4
  rw [append_eq_iff (pad2 (a / 100)) (pad2 (a % 100)) (pad2 (b / 100)) (pad2 (b % 100)) rfl,
    pad2_eq_iff _ _ (by omega) (by omega),
    pad2_eq_iff _ _ (by omega) (by omega)]
  omega

theorem pad6_lt_iff (a b : Nat) (ha : a < 1000000) (hb : b < 1000000) :
    List.Lex (fun a b : Char => a < b) (pad6 a) (pad6 b) ↔ a < b := by
  unfold pad6
  rw [show pad2 (a / 10000) ++ pad2 (a / 100 % 100) ++ pad2 (a % 100)
      = (pad2 (a / 10000) ++ pad2 (a / 100 % 100)) ++ pad2 (a % 100) from rfl,
    show pad2 (b / 10000) ++ pad2 (b / 100 % 100) ++ pad2 (b % 100)
      = (pad2 (b / 10000) ++ pad2 (b / 100 % 100)) ++ pad2 (b % 100) from rfl,
    lex_append_iff (pad2 (a / 10000) ++ pad2 (a / 100 % 100)) (pad2 (a % 100))
      (pad2 (b / 10000) ++ pad2 (b / 100 % 100)) (pad2 (b % 100)) rfl,
    lex_append_iff (pad2 (a / 10000)) (pad2 (a / 100 % 100))
      (pad2 (b / 10000)) (pad2 (b / 100 % 100)) rfl,
    append_eq_iff (pad2 (a / 10000)) (pad2 (a / 100 % 100))
      (pad2 (b / 10000)) (pad2 (b / 100 % 100)) rfl,
    pad2_lt_iff (a / 10000) _ (by omega) (by omega),
    pad2_eq_iff (a / 10000) _ (by omega) (by omega),
    pad2_lt_iff (a / 100 % 100) _ (by omega) (by omega),
    pad2_eq_iff (a / 100 % 100) _ (by omega) (by omega),
    pad2_lt_iff (a % 100) _ (by omega) (by omega)]
  omega

theorem microSuffix_lex_iff (u1 u2 : Nat) (h1 : u1 < 1000000) (h2 : u2 < 1000000) :
    List.Lex (fun a b : Char => a < b) (microSuffix u1) (microSuffix u2) ↔ u1 < u2 := by
  unfold microSuffix
  by_cases hz1 : u1 = 0 <;> by_cases hz2 : u2 = 0
  · subst hz1; subst hz2; simp
  · rw [if_pos hz1, if_neg hz2]
    subst hz1
    constructor
    · intro _; omega
    · intro _; exact List.Lex.nil
  · rw [if_neg hz1, if_pos hz2]
    constructor
    · intro h; exact absurd h (List.Lex.not_nil_right _ _)
    · intro h; omega
  · rw [if_neg hz1, if_neg hz2, List.Lex.cons_iff, pad6_lt_iff _ _ (by omega) (by omega)]

theorem isoformat_lt_iff (d1 d2 : DateTime) (h1 : d1.Valid) (h2 : d2.Valid) :
    isoformat d1 < isoformat d2 ↔ chronoLT d1 d2 := by
  obtain ⟨hy1, hy1b, hmo1, hmo1b, hd1, hd1b, hh1, hmi1, hs1, hu1⟩ := h1
  obtain ⟨hy2, hy2b, hmo2, hmo2b, hd2, hd2b, hh2, hmi2, hs2, hu2⟩ := h2
  rw [show (isoformat d1 < isoformat d2
        ↔ List.Lex (fun a b : Char => a < b) (isoChars d1) (isoChars d2))
      from String.lt_iff_toList_lt]
  unfold isoChars chronoLT
  rw [lex_append_iff (pad4 d1.year) _ (pad4 d2.year) _ rfl,
    pad4_lt_iff _ _ (by omega) (by omega), pad4_eq_iff _ _ (by omega) (by omega),
    List.Lex.cons_iff,
    lex_append_iff (pad2 d1.month) _ (pad2 d2.month) _ rfl,
    pad2_lt_iff d1.month _ (by omega) (by omega), pad2_eq_iff d1.month _ (by omega) (by omega),
    List.Lex.cons_iff,
    lex_append_iff (pad2 d1.day) _ (pad2 d2.day) _ rfl,
    pad2_lt_iff d1.day _ (by omega) (by omega), pad2_eq_iff d1.day _ (by omega) (by omega),
    List.Lex.cons_iff,
    lex_append_iff (pad2 d1.hour) _ (pad2 d2.hour) _ rfl,
    pad2_lt_iff d1.hour _ (by omega) (by omega), pad2_eq_iff d1.hour _ (by omega) (by omega),
    List.Lex.cons_iff,
    lex_append_iff (pad2 d1.minute) _ (pad2 d2.minute) _ rfl,
    pad2_lt_iff d1.minute _ (by omega) (by omega), pad2_eq_iff d1.minute _ (by omega) (by omega),
    List.Lex.cons_iff,
    lex_append_iff (pad2 d1.second) _ (pad2 d2.second) _ rfl,
    pad2_lt_iff d1.second _ (by omega) (by omega), pad2_eq_iff d1.second _ (by omega) (by omega),
    microSuffix_lex_iff _ _ (by omega) (by omega)]

/-! ### Field lemmas for the update bodies -/

theorem applyTicketUpdate_status (t : Ticket) (u : TicketUpdate) (now : String) :
    (applyTicketUpdate t u now).status = u.status.getD t.status := by
  rcases u with ⟨ti, de, st, pr, a⟩
  cases ti <;> cases de <;> cases st <;> cases pr <;> cases a <;> rfl

theorem applyTicketUpdate_priority (t : Ticket) (u : TicketUpdate) (now : String) :
    (applyTicketUpdate t u now).priority = u.priority.getD t.priority := by
  rcases u with ⟨ti, de, st, pr, a⟩
  cases ti <;> cases de <;> cases st <;> cases pr <;> cases a <;> rfl

theorem applyTicketUpdate_assigned_isSome (t : Ticket) (u : TicketUpdate) (now : String)
    (h : t.assigned_to.isSome = true) :
    (applyTicketUpdate t u now).assigned_to.isSome = true := by
  rcases u with ⟨ti, de, st, pr, a⟩
  cases ti <;> cases de <;> cases st <;> cases pr <;> cases a <;>
    first
    | exact h
    | rfl

/-! ### Distribution-count lemma for get_stats -/

theorem filter_length_four (f : Ticket → String) (a b c d : String) (l : List Ticket)
    (hab : a ≠ b) (hac : a ≠ c) (had : a ≠ d) (hbc : b ≠ c) (hbd : b ≠ d) (hcd : c ≠ d)
    (h : ∀ t ∈ l, f t = a ∨ f t = b ∨ f t = c ∨ f t = d) :
    (l.filter (fun t => f t == a)).length + (l.filter (fun t => f t == b)).length
      + (l.filter (fun t => f t == c)).length + (l.filter (fun t => f t == d)).length
      = l.length := by
  induction l with
  | nil => rfl
  | cons t l ih =>
    have hrest : ∀ x ∈ l, f x = a ∨ f x = b ∨ f x = c ∨ f x = d :=
      fun x hx => h x (List.mem_cons_of_mem t hx)
    have ihl := ih hrest
    rcases h t (List.mem_cons_self t l) with h1 | h1 | h1 | h1 <;>
      simp only [List.filter_cons, h1, beq_self_eq_true, if_true, List.length_cons,
        show (a == b) = false by simp [hab], show (a == c) = false by simp [hac],
        show (a == d) = false by simp [had], show (b == a) = false by simp [Ne.symm hab],
        show (b == c) = false by simp [hbc], show (b == d) = false by simp [hbd],
        show (c == a) = false by simp [Ne.symm hac], show (c == b) = false by simp [Ne.symm hbc],
        show (c == d) = false by simp [hcd], show (d == a) = false by simp [Ne.symm had],
        show (d == b) = false by simp [Ne.symm hbd], show (d == c) = false by simp [Ne.symm hcd],
        Bool.false_eq_true, if_false] <;>
      omega

/-! ### Claim theorems -/

/-- Claim C2: `bulk_update_tickets` processes the ids in input order,
records an absent id under `not_found`, otherwise applies exactly the
present keys of `updates` and refreshes `updated_at`, recording the id under
`updated`; the buckets are pairwise disjoint (with `failed` empty) and their
concatenation counts every input id exactly as often as it occurs in the
input. -/
theorem bulk_update_spec (db : Db) (ids : List String) (u : BulkUpdates) (now : String) :
    (bulk_update_tickets db ids u now).1.updated
        = ids.filter (fun i => (db.lookup i).isSome)
    ∧ (bulk_update_tickets db ids u now).1.not_found
        = ids.filter (fun i => (db.lookup i).isNone)
    ∧ (bulk_update_tickets db ids u now).1.failed = []
    ∧ (∀ i, ((bulk_update_tickets db ids u now).1.updated
          ++ (bulk_update_tickets db ids u now).1.failed
          ++ (bulk_update_tickets db ids u now).1.not_found).count i = ids.count i)
    ∧ (∀ i, i ∈ (bulk_update_tickets db ids u now).1.updated
          → i ∉ (bulk_update_tickets db ids u now).1.not_found)
    ∧ (∀ i t, i ∈ ids → db.lookup i = some t →
        (bulk_update_tickets db ids u now).2.lookup i = some (applyBulkUpdates t u now))
    ∧ (∀ i, i ∉ ids → (bulk_update_tickets db ids u now).2.lookup i = db.lookup i) := by
  have hfst := bulkGo_fst u now ids ⟨[], [], []⟩ db
  have hsnd := fun i => bulkGo_snd u now ids ⟨[], [], []⟩ db i
  rw [bulk_update_tickets] at *
  refine ⟨?_, ?_, ?_, ?_, ?_, ?_, ?_⟩
  · rw [hfst]
    rfl
  · rw [hfst]
    rfl
  · rw [hfst]
  · intro i
    rw [hfst]
    simp only [List.nil_append, List.count_append, List.count_nil]
    cases hp : (db.lookup i).isSome with
    | true =>
      have h1 : List.count i (ids.filter (fun j => (db.lookup j).isSome)) = ids.count i :=
        List.count_filter hp
      have h2 : List.count i (ids.filter (fun j => (db.lookup j).isNone)) = 0 := by
        rw [List.count_eq_zero]
        intro hmem
        have := (List.mem_filter.mp hmem).2
        rw [Option.isNone_iff_eq_none] at this
        rw [this] at hp
        exact Bool.noConfusion hp
      omega
    | false =>
      have hn : (db.lookup i).isNone = true := by
        cases hq : db.lookup i <;> simp_all
      have h1 : List.count i (ids.filter (fun j => (db.lookup j).isSome)) = 0 := by
        rw [List.count_eq_zero]
        intro hmem
        have := (List.mem_filter.mp hmem).2
        rw [this] at hp
        exact Bool.noConfusion hp
      have h2 : List.count i (ids.filter (fun j => (db.lookup j).isNone)) = ids.count i :=
        List.count_filter hn
      omega
  · intro i hmem
    rw [hfst] at hmem ⊢
    intro hmem2
    have h1 := (List.mem_filter.mp hmem).2
    have h2 := (List.mem_filter.mp hmem2).2
    rw [Option.isNone_iff_eq_none] at h2
    rw [h2] at h1
    exact Bool.noConfusion h1
  · intro i t hmem ht
    rw [hsnd i, if_pos ⟨hmem, by rw [ht]; rfl⟩, ht]
    rfl
  · intro i hmem
    rw [hsnd i]
    have : ¬ (i ∈ ids ∧ (db.lookup i).isSome = true) := fun hc => hmem hc.1
    rw [if_neg this]

/-- Claim C2 witness: the spec's own worked example, on a store containing
`x1` and `x3` but not `missing`. -/
theorem bulk_update_spec_witness :
    (bulk_update_tickets demoDb ["x1", "missing", "x3"]
        { status := some "closed" } "T9").1.updated = ["x1", "x3"]
    ∧ (bulk_update_tickets demoDb ["x1", "missing", "x3"]
        { status := some "closed" } "T9").1.not_found = ["missing"]
    ∧ (bulk_update_tickets demoDb ["x1", "missing", "x3"]
        { status := some "closed" } "T9").1.failed = []
    ∧ (bulk_update_tickets demoDb ["x1", "missing", "x3"]
        { status := some "closed" } "T9").2.lookup "x1"
      = some (applyBulkUpdates
          (sampleTicket "x1" "open" "high" (some "A") "2024-01-01T00:00:00")
          { status := some "closed" } "T9") := by
  have h := bulk_update_spec demoDb ["x1", "missing", "x3"] { status := some "closed" } "T9"
  refine ⟨?_, ?_, h.2.2.1, ?_⟩
  · rw [h.1]
    rfl
  · rw [h.2.1]
    rfl
  · exact h.2.2.2.2.2.1 "x1"
      (sampleTicket "x1" "open" "high" (some "A") "2024-01-01T00:00:00")
      (by simp) rfl

/-- Claim C9: the `failed` bucket of `bulk_update_tickets` is empty for
every input, because every operation in the per-item body is total, making
the `except` branch that would populate it unreachable. -/
theorem bulk_update_failed_empty (db : Db) (ids : List String) (u : BulkUpdates)
    (now : String) :
    (bulk_update_tickets db ids u now).1.failed = [] := by
  rw [bulk_update_tickets, bulkGo_fst u now ids ⟨[], [], []⟩ db]

/-- Claim C10: a single-ticket update can never unassign: when the stored
ticket has an assignee, the updated ticket still has one (a `None` payload
field means "leave unchanged" and a present payload value is a string, never
the unassigned state), whereas `bulk_update_tickets` with an explicit
`null`-valued `assigned_to` key does set the stored field to `None`. -/
theorem update_never_unassigns (db : Db) (i now : String) (u : TicketUpdate) (t : Ticket)
    (ht : db.lookup i = some t) (ha : t.assigned_to.isSome = true) (hv : u.valid = true) :
    update_ticket db i u now
        = .ok (applyTicketUpdate t u now, dbSet db i (fun t0 => applyTicketUpdate t0 u now))
    ∧ (applyTicketUpdate t u now).assigned_to.isSome = true
    ∧ (applyBulkUpdates t { assigned_to := some none } now).assigned_to = none
    ∧ (bulk_update_tickets db [i] { assigned_to := some none } now).2.lookup i
        = some (applyBulkUpdates t { assigned_to := some none } now) := by
  refine ⟨?_, applyTicketUpdate_assigned_isSome t u now ha, rfl, ?_⟩
  · rw [update_ticket, if_pos hv, ht]
  · rw [bulk_update_tickets, bulkGo_snd, if_pos ⟨by simp, by rw [ht]; rfl⟩, ht]
    rfl

/-- Claim C10 witness: updating `x1` (assigned to `A`) with a status-only
payload keeps it assigned; a bulk update with an explicit null unassigns
it. -/
theorem update_never_unassigns_witness :
    (applyTicketUpdate (sampleTicket "x1" "open" "high" (some "A") "2024-01-01T00:00:00")
        { status := some "closed" } "T9").assigned_to.isSome = true
    ∧ (bulk_update_tickets demoDb ["x1"] { assigned_to := some none } "T9").2.lookup "x1"
        = some (applyBulkUpdates
            (sampleTicket "x1" "open" "high" (some "A") "2024-01-01T00:00:00")
            { assigned_to := some none } "T9") := by
  have h := update_never_unassigns demoDb "x1" "T9" { status := some "closed" }
    (sampleTicket "x1" "open" "high" (some "A") "2024-01-01T00:00:00") rfl rfl (by decide)
  exact ⟨h.2.1, h.2.2.2⟩

/-- Claim C3 counterexample: the two failure cases of auto-assign (absent
ticket id, empty candidate list) produce identical results — the helper
returns the same bare `False` and the endpoint surfaces the same
`400 "Assignment failed"` — so they are not distinguishable typed
`NotFound`/`InvalidArgument` failures as claimed. -/
theorem auto_assign_failures_indistinguishable :
    auto_assign_endpoint demoDb "missing" ["Alice"] "T9"
        = (Except.error (400, "Assignment failed"), demoDb)
    ∧ auto_assign_endpoint demoDb "x1" [] "T9"
        = (Except.error (400, "Assignment failed"), demoDb)
    ∧ assign_ticket_automatically demoDb "missing" ["Alice"] "T9"
        = assign_ticket_automatically demoDb "x1" [] "T9" := by
  exact ⟨rfl, rfl, rfl⟩

/-- Claim C3 amended: auto-assign fails when the ticket id is absent and
when the candidate list is empty, and in both cases no ticket is mutated;
but the two failure modes surface to the caller as one and the same
undifferentiated failure (`False` from the helper, HTTP 400
`"Assignment failed"` from the endpoint), not as distinguishable
`NotFound`/`InvalidArgument` errors. -/
theorem auto_assign_failure_modes (db : Db) (i now : String) (members : List String) :
    ((db.lookup i).isNone = true →
      assign_ticket_automatically db i members now = (false, db)
      ∧ auto_assign_endpoint db i members now
          = (Except.error (400, "Assignment failed"), db))
    ∧ (members = [] →
      assign_ticket_automatically db i members now = (false, db)
      ∧ auto_assign_endpoint db i members now
          = (Except.error (400, "Assignment failed"), db)) := by
  constructor
  · intro h
    have h1 : assign_ticket_automatically db i members now = (false, db) := by
      rw [assign_ticket_automatically.eq_def, if_pos h]
    refine ⟨h1, ?_⟩
    rw [auto_assign_endpoint, h1]
    rfl
  · intro h
    subst h
    have h1 : assign_ticket_automatically db i [] now = (false, db) := by
      rw [assign_ticket_automatically.eq_def]
      by_cases hn : (db.lookup i).isNone = true
      · rw [if_pos hn]
      · rw [if_neg hn]
    refine ⟨h1, ?_⟩
    rw [auto_assign_endpoint, h1]
    rfl

/-- Claim C3 amended, witness: both failure cases on the concrete store. -/
theorem auto_assign_failure_modes_witness :
    auto_assign_endpoint demoDb "missing" ["Alice"] "T9"
        = (Except.error (400, "Assignment failed"), demoDb)
    ∧ auto_assign_endpoint demoDb "x1" [] "T9"
        = (Except.error (400, "Assignment failed"), demoDb) :=
  ⟨((auto_assign_failure_modes demoDb "missing" "T9" ["Alice"]).1 rfl).2,
   ((auto_assign_failure_modes demoDb "x1" "T9" []).2 rfl).2⟩

/-- Claim C4: for an existing ticket and non-empty candidate list,
auto-assign tallies the current per-candidate assignment counts over all
live tickets (re-tallied from the store on each call — the function reads
only `db`), writes the first candidate with minimal count into
`assigned_to`, and refreshes `updated_at`. -/
theorem auto_assign_picks_least_busy (db : Db) (i now : String) (members : List String)
    (t : Ticket) (ht : db.lookup i = some t) (hm : members ≠ []) :
    ∃ m pre post,
      assign_ticket_automatically db i members now
        = (true, dbSet db i (fun t0 => { t0 with assigned_to := some m, updated_at := now }))
      ∧ (assign_ticket_automatically db i members now).2.lookup i
          = some { t with assigned_to := some m, updated_at := now }
      ∧ members = pre ++ m :: post
      ∧ (∀ y ∈ pre, countAssignments db m < countAssignments db y)
      ∧ (∀ y ∈ members, countAssignments db m ≤ countAssignments db y) := by
  cases members with
  | nil => exact absurd rfl hm
  | cons m0 rest =>
    have hns : (db.lookup i).isNone = false := by
      rw [ht]
      rfl
    have heq : assign_ticket_automatically db i (m0 :: rest) now
        = (true, dbSet db i (fun t0 =>
            { t0 with assigned_to := some (leastBusyFold (countAssignments db) m0 rest)
                    , updated_at := now })) := by
      rw [assign_ticket_automatically, hns]
      rfl
    obtain ⟨pre, post, hsplit, hpre, hmin⟩ := leastBusyFold_spec (countAssignments db) rest m0
    refine ⟨leastBusyFold (countAssignments db) m0 rest, pre, post, heq, ?_, hsplit, hpre, hmin⟩
    rw [heq]
    show (dbSet db i (fun t0 =>
        { t0 with assigned_to := some (leastBusyFold (countAssignments db) m0 rest)
                , updated_at := now })).lookup i = _
    rw [lookup_dbSet_self, ht]
    rfl

/-- Claim C4 witness: the spec's worked example — `A` currently holds two
tickets, `B` none, so the ticket is assigned to `B`; and with the tallies
swapped in favor of the first candidate the tie-break picks the first. -/
theorem auto_assign_picks_least_busy_witness :
    countAssignments demoDb "A" = 2
    ∧ countAssignments demoDb "B" = 0
    ∧ (assign_ticket_automatically demoDb "x3" ["A", "B"] "T9").2.lookup "x3"
        = some { sampleTicket "x3" "resolved" "medium" none "2024-01-02T00:00:00" with
                  assigned_to := some "B", updated_at := "T9" }
    ∧ ∃ m pre post,
        assign_ticket_automatically demoDb "x3" ["A", "B"] "T9"
          = (true, dbSet demoDb "x3" (fun t0 =>
              { t0 with assigned_to := some m, updated_at := "T9" }))
        ∧ (assign_ticket_automatically demoDb "x3" ["A", "B"] "T9").2.lookup "x3"
            = some { sampleTicket "x3" "resolved" "medium" none "2024-01-02T00:00:00" with
                      assigned_to := some m, updated_at := "T9" }
        ∧ ["A", "B"] = pre ++ m :: post
        ∧ (∀ y ∈ pre, countAssignments demoDb m < countAssignments demoDb y)
        ∧ (∀ y ∈ ["A", "B"], countAssignments demoDb m ≤ countAssignments demoDb y) := by
  refine ⟨rfl, rfl, rfl, ?_⟩
  exact auto_assign_picks_least_busy demoDb "x3" "T9" ["A", "B"]
    (sampleTicket "x3" "resolved" "medium" none "2024-01-02T00:00:00") rfl (by simp)

/-- Claim C1 counterexample: enumeration membership is not enforced at the
input boundary — `create_ticket` accepts a request whose priority `"bogus"`
lies outside the enumeration (the unused `validate_ticket_priority` would
have rejected it) and stores it verbatim, so the claimed store invariant is
not established. -/
theorem create_accepts_invalid_priority :
    create_ticket [] bogusReq "id-1" "2024-01-01T00:00:00"
        = Except.ok (newTicket bogusReq "id-1" "2024-01-01T00:00:00",
            [("id-1", newTicket bogusReq "id-1" "2024-01-01T00:00:00")])
    ∧ (newTicket bogusReq "id-1" "2024-01-01T00:00:00").priority = "bogus"
    ∧ validPriorities.contains "bogus" = false
    ∧ validate_ticket_priority "bogus" = false := by
  refine ⟨?_, rfl, rfl, by decide⟩
  rw [create_ticket, if_pos (by decide)]
  rfl

/-- Claim C1 amended: the input boundary validates only the declared field
lengths; `status`/`priority` enumeration membership is not validated
anywhere — `create_ticket` stores the request's priority string verbatim
(always with status `"open"`), and `update_ticket` stores any
status/priority strings present in the payload verbatim. -/
theorem boundary_validates_lengths_only (db : Db) (req : TicketCreate)
    (u : TicketUpdate) (i now : String) :
    (req.valid = true →
      create_ticket db req i now
        = .ok (newTicket req i now, db ++ [(i, newTicket req i now)]))
    ∧ (req.valid = false → create_ticket db req i now = .error .validationError)
    ∧ (newTicket req i now).status = "open"
    ∧ (newTicket req i now).priority = req.priority
    ∧ (∀ t, db.lookup i = some t → u.valid = true →
        update_ticket db i u now
          = .ok (applyTicketUpdate t u now, dbSet db i (fun t0 => applyTicketUpdate t0 u now))
        ∧ (applyTicketUpdate t u now).status = u.status.getD t.status
        ∧ (applyTicketUpdate t u now).priority = u.priority.getD t.priority) := by
  refine ⟨?_, ?_, rfl, rfl, ?_⟩
  · intro hv
    rw [create_ticket, if_pos hv]
  · intro hv
    rw [create_ticket, if_neg (by rw [hv]; exact Bool.false_ne_true)]
  · intro t ht hv
    refine ⟨?_, applyTicketUpdate_status t u now, applyTicketUpdate_priority t u now⟩
    rw [update_ticket, if_pos hv, ht]

/-- Claim C1 amended, witness: a length-valid create with priority
`"bogus"` succeeds, and an update writes an arbitrary status string. -/
theorem boundary_validates_lengths_only_witness :
    create_ticket [] bogusReq "id-1" "T0"
        = Except.ok (newTicket bogusReq "id-1" "T0", [("id-1", newTicket bogusReq "id-1" "T0")])
    ∧ (applyTicketUpdate (sampleTicket "x1" "open" "high" (some "A") "2024-01-01T00:00:00")
        { status := some "weird" } "T9").status = "weird" := by
  have h := boundary_validates_lengths_only demoDb bogusReq
    ({ status := some "weird" } : TicketUpdate) "x1" "T9"
  have h0 := boundary_validates_lengths_only [] bogusReq
    ({ } : TicketUpdate) "id-1" "T0"
  exact ⟨h0.1 (by decide),
    ((h.2.2.2.2 (sampleTicket "x1" "open" "high" (some "A") "2024-01-01T00:00:00")
      rfl (by decide)).2.1)⟩

/-- Claim C5 counterexample: filtering with the empty string — a value
outside the status enumeration — does not return an empty result: the
`if status:` truthiness guard treats `""` as "no filter given" and returns
every ticket. -/
theorem empty_string_filter_returns_all :
    get_tickets demoDb (some "") none
        = [ sampleTicket "x2" "open" "low" (some "A") "2024-01-02T00:00:00"
          , sampleTicket "x3" "resolved" "medium" none "2024-01-02T00:00:00"
          , sampleTicket "x1" "open" "high" (some "A") "2024-01-01T00:00:00" ]
    ∧ validStatuses.contains "" = false
    ∧ demoDb ≠ [] := by
  refine ⟨by decide, rfl, by decide⟩

/-- Claim C5 amended: on a store whose tickets carry enumeration-valid
statuses and priorities, filtering with a NON-EMPTY value outside the
respective enumeration yields an empty result (equality-filter semantics);
the empty string is instead treated as "filter absent" by Python
truthiness, returning the unfiltered listing. -/
theorem out_of_enum_filter_yields_empty (db : Db) (s p : String)
    (hdb : ∀ kv ∈ db, kv.2.status ∈ validStatuses ∧ kv.2.priority ∈ validPriorities) :
    (s ≠ "" → s ∉ validStatuses → get_tickets db (some s) none = [])
    ∧ (p ≠ "" → p ∉ validPriorities → get_tickets db none (some p) = [])
    ∧ get_tickets db (some "") (some "") = get_tickets db none none := by
  refine ⟨?_, ?_, ?_⟩
  · intro hs hmem
    rw [get_tickets, filteredTickets]
    have hf : (db.map Prod.snd).filter (fun t => t.status == s) = [] := by
      rw [List.filter_eq_nil_iff]
      intro t hmem2
      obtain ⟨kv, hkv, rfl⟩ := List.mem_map.mp hmem2
      have := (hdb kv hkv).1
      simp only [beq_iff_eq]
      intro hcontra
      exact hmem (hcontra ▸ this)
    simp only [if_neg hs, hf]
    rfl
  · intro hp hmem
    rw [get_tickets, filteredTickets]
    have hf : (db.map Prod.snd).filter (fun t => t.priority == p) = [] := by
      rw [List.filter_eq_nil_iff]
      intro t hmem2
      obtain ⟨kv, hkv, rfl⟩ := List.mem_map.mp hmem2
      have := (hdb kv hkv).2
      simp only [beq_iff_eq]
      intro hcontra
      exact hmem (hcontra ▸ this)
    simp only [if_neg hp, hf]
    rfl
  · rfl

/-- Claim C5 amended, witness: a non-empty out-of-enumeration value on the
concrete store yields the empty result for both filters. -/
theorem out_of_enum_filter_yields_empty_witness :
    get_tickets demoDb (some "bogus") none = []
    ∧ get_tickets demoDb none (some "urgent") = [] := by
  have h := out_of_enum_filter_yields_empty demoDb "bogus" "urgent" (by decide)
  exact ⟨h.1 (by decide) (by decide), h.2.1 (by decide) (by decide)⟩

/-- Claim C6 counterexample: on a store holding one ticket whose priority
`"bogus"` lies outside the enumeration (reachable through `create_ticket`,
which does not validate priority), the `by_priority` counts of `get_stats`
sum to 0 while `total` is 1 — the claimed sum equality fails for such a
collection. -/
theorem stats_sum_misses_out_of_enum :
    ((get_stats bogusDb).by_priority.map Prod.snd).sum = 0
    ∧ (get_stats bogusDb).total = 1 := ⟨rfl, rfl⟩

/-- Claim C6 amended: `get_stats` always emits exactly the four enumeration
members as keys of each distribution (zero-valued when no ticket matches),
and — provided every stored ticket's status and priority lie in their
enumerations — the counts of each distribution sum exactly to `total`. -/
theorem stats_keys_and_sums (db : Db)
    (hs : ∀ kv ∈ db, kv.2.status ∈ validStatuses)
    (hp : ∀ kv ∈ db, kv.2.priority ∈ validPriorities) :
    (get_stats db).by_status.map Prod.fst = validStatuses
    ∧ (get_stats db).by_priority.map Prod.fst = validPriorities
    ∧ ((get_stats db).by_status.map Prod.snd).sum = (get_stats db).total
    ∧ ((get_stats db).by_priority.map Prod.snd).sum = (get_stats db).total := by
  refine ⟨rfl, rfl, ?_, ?_⟩
  · have h4 := filter_length_four Ticket.status "open" "in_progress" "resolved" "closed"
      (db.map Prod.snd) (by decide) (by decide) (by decide) (by decide) (by decide) (by decide)
      (by
        intro t hmem
        obtain ⟨kv, hkv, rfl⟩ := List.mem_map.mp hmem
        have := hs kv hkv
        simpa [validStatuses] using this)
    simp only [get_stats, List.map_cons, List.map_nil, List.sum_cons, List.sum_nil]
    omega
  · have h4 := filter_length_four Ticket.priority "low" "medium" "high" "critical"
      (db.map Prod.snd) (by decide) (by decide) (by decide) (by decide) (by decide) (by decide)
      (by
        intro t hmem
        obtain ⟨kv, hkv, rfl⟩ := List.mem_map.mp hmem
        have := hp kv hkv
        simpa [validPriorities] using this)
    simp only [get_stats, List.map_cons, List.map_nil, List.sum_cons, List.sum_nil]
    omega

/-- Claim C6 amended, witness: on the concrete enumeration-valid store both
sums equal the total of 3 and the key lists are the enumerations. -/
theorem stats_keys_and_sums_witness :
    (get_stats demoDb).by_status.map Prod.fst = validStatuses
    ∧ ((get_stats demoDb).by_status.map Prod.snd).sum = (get_stats demoDb).total
    ∧ ((get_stats demoDb).by_priority.map Prod.snd).sum = (get_stats demoDb).total := by
  have h := stats_keys_and_sums demoDb (by decide) (by decide)
  exact ⟨h.1, h.2.2.1, h.2.2.2⟩

/-- Claim C7: `get_tickets` returns the filtered snapshot sorted by
`created_at` descending (pairwise, each later element's key is no greater),
as a permutation of the filtered snapshot, stably (tickets with equal
`created_at` keep their store insertion order, stated per-key via `filter`);
and the sort on timestamp text is sound because on `isoformat`
serializations of valid datetimes the lexicographic string order coincides
with chronological order. -/
theorem query_sorted_stable_iso (db : Db) (s p : Option String) :
    List.Sorted createdGE (get_tickets db s p)
    ∧ List.Perm (get_tickets db s p) (filteredTickets db s p)
    ∧ (∀ k, (get_tickets db s p).filter (fun t => t.created_at == k)
        = (filteredTickets db s p).filter (fun t => t.created_at == k))
    ∧ (∀ d1 d2 : DateTime, d1.Valid → d2.Valid →
        (isoformat d1 < isoformat d2 ↔ chronoLT d1 d2)) := by
  refine ⟨List.sorted_insertionSort createdGE (filteredTickets db s p),
    List.perm_insertionSort createdGE (filteredTickets db s p),
    fun k => filter_sortByCreatedAtDesc k (filteredTickets db s p),
    isoformat_lt_iff⟩

/-- Claim C7 witness: on the concrete store the no-filter query is sorted
descending with the `x2`/`x3` tie kept in insertion order, and the
isoformat order agrees with chronological order at concrete datetimes. -/
theorem query_sorted_stable_iso_witness :
    get_tickets demoDb none none
        = [ sampleTicket "x2" "open" "low" (some "A") "2024-01-02T00:00:00"
          , sampleTicket "x3" "resolved" "medium" none "2024-01-02T00:00:00"
          , sampleTicket "x1" "open" "high" (some "A") "2024-01-01T00:00:00" ]
    ∧ List.Sorted createdGE (get_tickets demoDb none none)
    ∧ (isoformat ⟨2024, 1, 28, 10, 30, 0, 0⟩ < isoformat ⟨2024, 1, 28, 10, 30, 0, 1⟩
        ↔ chronoLT ⟨2024, 1, 28, 10, 30, 0, 0⟩ ⟨2024, 1, 28, 10, 30, 0, 1⟩) := by
  refine ⟨rfl, (query_sorted_stable_iso demoDb none none).1,
    (query_sorted_stable_iso demoDb none none).2.2.2
      ⟨2024, 1, 28, 10, 30, 0, 0⟩ ⟨2024, 1, 28, 10, 30, 0, 1⟩ (by decide) (by decide)⟩

/-- Claim C8: `get_completion_rate` is 0 on an empty store and otherwise
exactly `completed / total * 100` (always within `[0, 100]`, the division
being by the non-zero total), and `get_average_resolution_time` is 0 when
no resolved/closed ticket exists — neither can fault on division by
zero. -/
theorem completion_rate_safe (db : Db) (days : String → String → Int) :
    (db = [] → get_completion_rate db = 0)
    ∧ (db ≠ [] →
        get_completion_rate db
          = ((completedTickets db).length : Rat) / (db.length : Rat) * 100)
    ∧ 0 ≤ get_completion_rate db
    ∧ get_completion_rate db ≤ 100
    ∧ (completedTickets db = [] → get_average_resolution_time days db = 0) := by
  have hle : (completedTickets db).length ≤ db.length := by
    have h1 := List.length_filter_le
      (fun t => (["resolved", "closed"] : List String).contains t.status) (db.map Prod.snd)
    simpa [completedTickets] using h1
  refine ⟨?_, ?_, ?_, ?_, ?_⟩
  · intro h
    subst h
    rfl
  · intro h
    rw [get_completion_rate, if_neg (by simpa [List.isEmpty_iff] using h)]
  · by_cases h : db = []
    · subst h
      norm_num [get_completion_rate]
    · rw [get_completion_rate, if_neg (by simpa [List.isEmpty_iff] using h)]
      positivity
  · by_cases h : db = []
    · subst h
      norm_num [get_completion_rate]
    · rw [get_completion_rate, if_neg (by simpa [List.isEmpty_iff] using h)]
      have hpos : (0 : Rat) < (db.length : Rat) := by
        have : 0 < db.length := List.length_pos.mpr h
        exact_mod_cast this
      have hdiv : ((completedTickets db).length : Rat) / (db.length : Rat) ≤ 1 := by
        rw [div_le_one hpos]
        exact_mod_cast hle
      calc ((completedTickets db).length : Rat) / (db.length : Rat) * 100
          ≤ 1 * 100 := by
            apply mul_le_mul_of_nonneg_right hdiv
            norm_num
        _ = 100 := by norm_num
  · intro h
    rw [get_average_resolution_time]
    simp [h]

/-- Claim C8 witness: one of three tickets on the concrete store is
resolved, giving rate `1/3 * 100`; the empty store gives average resolution
time 0. -/
theorem completion_rate_safe_witness :
    get_completion_rate demoDb
        = ((completedTickets demoDb).length : Rat) / (demoDb.length : Rat) * 100
    ∧ get_average_resolution_time (fun _ _ => (0 : Int)) [] = 0 :=
  ⟨(completion_rate_safe demoDb (fun _ _ => 0)).2.1 (by decide),
   (completion_rate_safe [] (fun _ _ => 0)).2.2.2.2 rfl⟩

end TicketTracker
